import Mathlib

/-!
# Verification of `analyze.py` (equity technical/fundamental analysis CLI)

Shallow embedding of the core logic of `src/analyze.py`:

* Series Normalizer — `download_stock_data` (empty check, close-field
  resolution), lines 22–50.
* Indicator Engine — `compute_indicators` (single try/except around four
  pandas_ta calls, on a copied frame), lines 104–115.
* Fundamental Normalizer — `get_fundamental_data` (two provider shapes,
  ROE derivation, catch-all boundary), lines 54–101.
* Signal Synthesizer — the classification/verdict logic of
  `analyze_stock`, lines 231–300.

Prices and indicator values are modelled as rationals (`ℚ`); a pandas
value that may be missing or NaN is modelled by `RawVal`; a Python dict
field read with `.get` is an `Option`.
-/

namespace Analyze

/-- A raw pandas value as seen through `pd.notna`: either a genuine number,
a NaN, or an absent field (`.get` returned `None`). -/
inductive RawVal where
  | num (q : ℚ)
  | nan
  | missing
deriving DecidableEq, Repr

/-- `pd.notna` on a `RawVal`: true exactly on genuine numbers. -/
def RawVal.notna : RawVal → Bool
  | .num _ => true
  | _ => false

/-- The latest row of the enriched dataframe, as read by `analyze_stock`
(`latest_data.get(...)` for each indicator column): each indicator value is
present (`some`) or NaN/absent (`none`). -/
structure LatestRow where
  close : Option ℚ
  rsi14 : Option ℚ
  sma20 : Option ℚ
  sma50 : Option ℚ
  macdLine : Option ℚ
  macdSignal : Option ℚ
deriving DecidableEq, Repr

/-- The aggregate verdict printed by `analyze_stock` lines 276–300. -/
inductive Verdict where
  | bullish
  | bearish
  | neutral
  | indeterminate
deriving DecidableEq, Repr

/-- Signal synthesis of `analyze_stock` lines 276–300: `all_metrics_valid`
requires all five indicator values to be non-NaN; then
`if is_sma_bullish and is_macd_bullish and is_not_overbought` → bullish,
`elif (not is_sma_bullish) and (not is_macd_bullish) and is_not_oversold`
→ bearish, `else` → neutral. -/
def aggVerdict (r : LatestRow) : Verdict :=
  match r.sma20, r.sma50, r.macdLine, r.macdSignal, r.rsi14 with
  | some s20, some s50, some m, some sg, some rsi =>
    if s20 > s50 ∧ m > sg ∧ rsi < 70 then .bullish
    else if ¬ s20 > s50 ∧ ¬ m > sg ∧ rsi > 30 then .bearish
    else .neutral
  | _, _, _, _, _ => .indeterminate

/-- The boolean sub-flags `is_sma_bullish`, `is_macd_bullish`,
`is_not_overbought`, `is_not_oversold`, computed only when
`all_metrics_valid` holds (lines 281–285). -/
def subFlags (r : LatestRow) : Option (Bool × Bool × Bool × Bool) :=
  match r.sma20, r.sma50, r.macdLine, r.macdSignal, r.rsi14 with
  | some s20, some s50, some m, some sg, some rsi =>
    some (decide (s20 > s50), decide (m > sg), decide (rsi < 70), decide (rsi > 30))
  | _, _, _, _, _ => none

/-- PER classification outcomes of `analyze_stock` lines 231–244. -/
inductive PerClass where
  | na
  | lossMaking
  | undervalued
  | fair
  | overvalued
deriving DecidableEq, Repr

/-- PER classification, lines 232–244.  The guard is
`if per and pd.notna(per)`: a PER equal to `0` is falsy in Python, so it
takes the N/A branch; otherwise `per > 0 and per < 15` → undervalued,
`elif per > 0 and per < 30` → fair, `elif per > 0` → overvalued,
`else` → loss-making. -/
def classifyPER (per : Option ℚ) : PerClass :=
  match per with
  | none => .na
  | some p =>
    if p = 0 then .na
    else if p > 0 ∧ p < 15 then .undervalued
    else if p > 0 ∧ p < 30 then .fair
    else if p > 0 then .overvalued
    else .lossMaking

/-- PBR classification outcomes of `analyze_stock` lines 247–257. -/
inductive PbrClass where
  | na
  | undervalued
  | fair
  | overvalued
deriving DecidableEq, Repr

/-- PBR classification, lines 248–257 (same falsy guard as PER). -/
def classifyPBR (pbr : Option ℚ) : PbrClass :=
  match pbr with
  | none => .na
  | some p =>
    if p = 0 then .na
    else if p < 1 then .undervalued
    else if p < 2 then .fair
    else .overvalued

/-- ROE classification outcomes of `analyze_stock` lines 260–270. -/
inductive RoeClass where
  | na
  | excellent
  | adequate
  | weak
deriving DecidableEq, Repr

/-- ROE classification, lines 261–268 (same falsy guard). -/
def classifyROE (roe : Option ℚ) : RoeClass :=
  match roe with
  | none => .na
  | some p =>
    if p = 0 then .na
    else if p > 15/100 then .excellent
    else if p > 5/100 then .adequate
    else .weak

/-! ## Series Normalizer (`download_stock_data`, lines 22–50) -/

/-- The two typed failures of the Series Normalizer: `EmptySeriesError`
(line 34, zero-element frame) and `MissingPriceFieldError` (line 48,
reporting the available columns). -/
inductive NormError where
  | emptySeries
  | missingPriceField (available : List String)
deriving DecidableEq, Repr

/-- `pandas.DataFrame.empty`: true when any axis has length 0 (no rows or
no columns). -/
def dfEmpty (rows : Nat) (cols : List String) : Bool :=
  rows = 0 || cols.isEmpty

/-- Lowercase a column label character by character (the kernel-evaluable
form of `String.toLower`). -/
def strLower (s : String) : String :=
  ⟨s.data.map Char.toLower⟩

/-- `data.columns = data.columns.str.lower()`, line 41. -/
def lowerCols (cols : List String) : List String :=
  cols.map strLower

/-- `data.drop(columns=['close'])`, line 45. -/
def dropClose (cols : List String) : List String :=
  cols.filter (fun c => c != "close")

/-- `data.rename(columns={'adj close': 'close'})`, line 46. -/
def renameAdjClose (cols : List String) : List String :=
  cols.map (fun c => if c = "adj close" then "close" else c)

/-- `download_stock_data` after the provider call, lines 33–50, on a frame
with `rows` rows and single-level column labels `cols` (line 39 has already
collapsed a MultiIndex to the field level): empty check, lowercasing, then
close-field resolution.  Returns the row count and final columns, or the
raised error. -/
def download_stock_data (rows : Nat) (cols : List String) :
    Except NormError (Nat × List String) :=
  if dfEmpty rows cols then .error .emptySeries
  else
    let lc := lowerCols cols
    if "adj close" ∈ lc then
      let lc' := if "close" ∈ lc then dropClose lc else lc
      .ok (rows, renameAdjClose lc')
    else if "close" ∈ lc then .ok (rows, lc)
    else .error (.missingPriceField lc)

/-! ## Fundamental Normalizer (`get_fundamental_data`, lines 54–101) -/

/-- The unified snapshot `{per, pbr, roe}` as observed through
`fundamentals.get(...)`. -/
structure Snapshot where
  per : Option ℚ
  pbr : Option ℚ
  roe : Option ℚ
deriving DecidableEq, Repr

/-- A row of the regional (pykrx) cross-sectional table: `info.get` on
the fields PER, PBR, EPS, BPS (each may be a number, NaN, or absent). -/
structure KrRow where
  per : RawVal
  pbr : RawVal
  eps : RawVal
  bps : RawVal
deriving DecidableEq, Repr

/-- The international (yfinance) `info` dict as read with `.get` (absent
or NaN collapses to `none` at the snapshot's consumers, which all guard
with `pd.notna`). -/
structure IntlInfo where
  trailingPE : Option ℚ
  priceToBook : Option ℚ
  returnOnEquity : Option ℚ
deriving DecidableEq, Repr

/-- A `RawVal` as an optional rational: NaN and absent collapse to
`none` (every consumer guards with `pd.notna`). -/
def RawVal.toOpt : RawVal → Option ℚ
  | .num q => some q
  | _ => none

/-- ROE derivation for the regional shape, lines 77–85:
`if pd.notna(eps) and pd.notna(bps) and bps != 0: roe = eps / bps
else: roe = None`. -/
def deriveROE (eps bps : RawVal) : Option ℚ :=
  match eps, bps with
  | .num e, .num b => if b ≠ 0 then some (e / b) else none
  | _, _ => none

/-- What the `try` block of `get_fundamental_data` observes: a regional
row, an international info dict, or any exception raised during retrieval
(network fault, `df_funda.loc[kr_ticker]` missing the ticker, schema
mismatch, ...). -/
inductive FetchResult where
  | krOk (row : KrRow)
  | intlOk (info : IntlInfo)
  | fault (msg : String)
deriving DecidableEq, Repr

/-- Result of `get_fundamental_data`: the snapshot (field reads via
`.get`, so the empty dict returned on failure reads as all-`None`),
whether the returned dict was the empty one of line 101 (checked by
`if not fundamentals` at line 228), and whether the warning of line 100
was printed. -/
structure FundResult where
  snap : Snapshot
  isEmptyDict : Bool
  warned : Bool
deriving DecidableEq, Repr

/-- `get_fundamental_data`, lines 54–101: the regional branch builds
`{per, pbr}` from the row and derives ROE; the international branch
passes the three `info.get` fields through; any exception is caught,
a warning printed, and the empty dict returned. -/
def get_fundamental_data (r : FetchResult) : FundResult :=
  match r with
  | .krOk row =>
      ⟨⟨row.per.toOpt, row.pbr.toOpt, deriveROE row.eps row.bps⟩, false, false⟩
  | .intlOk info =>
      ⟨⟨info.trailingPE, info.priceToBook, info.returnOnEquity⟩, false, false⟩
  | .fault _ => ⟨⟨none, none, none⟩, true, true⟩

/-! ## Report assembly (`analyze_stock`, lines 150–300)

The per-ticker report: the fundamental classification strings (or the
failure note of line 229 when the dict is empty) and the aggregate
verdict with its sub-flags. -/

/-- The observable output of one `analyze_stock` run past the data
stage: fundamental classifications (absent when the fundamentals dict
was empty) and the technical verdict with sub-flags. -/
structure Report where
  perClass : Option PerClass
  pbrClass : Option PbrClass
  roeClass : Option RoeClass
  verdict : Verdict
  flags : Option (Bool × Bool × Bool × Bool)
deriving DecidableEq, Repr

/-- Lines 226–300 of `analyze_stock`: classify fundamentals (skipped
when the dict is empty, line 228) and synthesize the signal from the
latest indicator row. -/
def analyzeReport (row : LatestRow) (f : FundResult) : Report :=
  { perClass := if f.isEmptyDict then none else some (classifyPER f.snap.per)
    pbrClass := if f.isEmptyDict then none else some (classifyPBR f.snap.pbr)
    roeClass := if f.isEmptyDict then none else some (classifyROE f.snap.roe)
    verdict := aggVerdict row
    flags := subFlags row }

/-! ## Indicator Engine (`compute_indicators`, lines 104–115)

`compute_indicators` copies the input frame (`data = data.copy()`) and
then, inside a SINGLE `try`, calls `data.ta.rsi`, `data.ta.macd`,
`data.ta.sma(20)`, `data.ta.sma(50)` in that order, each with
`append=True` (mutating the copy); `except Exception: pass` returns
whatever columns were appended before the first failure.  Each pandas_ta
call either appends its column(s) or raises; we parametrise the embedding
by the outcome of each call. -/

/-- An indicator column: one optional value per row. -/
abbrev Col := List (Option ℚ)

/-- A dataframe as `compute_indicators` sees it: the normalized close
series plus optional indicator columns (absent until appended). -/
structure Frame where
  close : List ℚ
  rsi : Option Col
  macdLine : Option Col
  macdSignal : Option Col
  sma20 : Option Col
  sma50 : Option Col
deriving DecidableEq, Repr, Inhabited

/-- A frame fresh from the Series Normalizer: no indicator columns. -/
def Frame.ofClose (close : List ℚ) : Frame :=
  ⟨close, none, none, none, none, none⟩

/-- The body of `compute_indicators`' `try` block on (a copy of) `f`:
the four pandas_ta calls in source order, each either appending its
column(s) or raising; the single `except` ends the sequence at the first
raise, keeping the columns appended so far. -/
def computeIndicatorsCore (f : Frame) (rsiR : Except String Col)
    (macdR : Except String (Col × Col)) (sma20R sma50R : Except String Col) :
    Frame :=
  match rsiR with
  | .error _ => f
  | .ok c =>
    let f := { f with rsi := some c }
    match macdR with
    | .error _ => f
    | .ok (m, sg) =>
      let f := { f with macdLine := some m, macdSignal := some sg }
      match sma20R with
      | .error _ => f
      | .ok c20 =>
        let f := { f with sma20 := some c20 }
        match sma50R with
        | .error _ => f
        | .ok c50 => { f with sma50 := some c50 }

/-- A Python heap of dataframe objects; a dataframe variable is an index
into it. -/
abbrev Store := List Frame

/-- `compute_indicators` with explicit aliasing: the caller's frame lives
at reference `r`; `data = data.copy()` allocates a fresh object, and all
`append=True` mutation hits only the fresh reference, which is returned. -/
def compute_indicators_st (s : Store) (r : Nat) (rsiR : Except String Col)
    (macdR : Except String (Col × Col)) (sma20R sma50R : Except String Col) :
    Store × Nat :=
  let rNew := s.length
  let s := s ++ [s.getD r default]
  let s := s.set rNew (computeIndicatorsCore (s.getD rNew default) rsiR macdR sma20R sma50R)
  (s, rNew)

/-! ## RSI(14)

The RSI values themselves are produced by the external `pandas_ta`
library (`data.ta.rsi(length=14)`), not by code in this repository.

Modelled from the spec: §4.2 — per-bar price delta; gain = max(delta, 0)
and loss = max(−delta, 0); each averaged over the last 14 values
(undefined until 14 deltas exist, i.e. before row index 14);
RS = average-gain / average-loss; RSI = 100 − 100/(1+RS); when the
average loss is exactly zero the RSI is defined as 100. -/

/-- Close price at row `i` (rows outside the series default to 0; the
definition below only reads indices `i − 13 − 1 … i`, all valid whenever
the value is defined). -/
def closeAt (c : List ℚ) (i : Nat) : ℚ := c.getD i 0

/-- The price delta at row `i` (`close i − close (i−1)`). -/
def deltaAt (c : List ℚ) (i : Nat) : ℚ := closeAt c i - closeAt c (i - 1)

/-- Sum of the gains of the 14 deltas ending at row `i`. -/
def gainSum (c : List ℚ) (i : Nat) : ℚ :=
  ∑ k ∈ Finset.range 14, max (deltaAt c (i - k)) 0

/-- Sum of the losses of the 14 deltas ending at row `i`. -/
def lossSum (c : List ℚ) (i : Nat) : ℚ :=
  ∑ k ∈ Finset.range 14, max (-(deltaAt c (i - k))) 0

/-- Modelled from the spec: rsi14 at row `i` of the close series `c`.
Undefined until 14 deltas exist (rows 0–13) and past the end of the
series; otherwise 100 when the window has no losses, else
100 − 100/(1+RS) with RS the ratio of the 14-delta average gain to the
14-delta average loss. -/
def rsiAt (c : List ℚ) (i : Nat) : Option ℚ :=
  if 14 ≤ i ∧ i < c.length then
    some (if lossSum c i / 14 = 0 then 100
          else 100 - 100 / (1 + (gainSum c i / 14) / (lossSum c i / 14)))
  else none

/-! ## Theorems -/

/-- Renaming `adj close` to `close` yields a list containing `close`
whenever `adj close` was present. -/
lemma mem_renameAdjClose_close (l : List String) (h : "adj close" ∈ l) :
    "close" ∈ renameAdjClose l := by
  simp only [renameAdjClose, List.mem_map]
  exact ⟨"adj close", h, if_pos rfl⟩

/-- After the rename, no `adj close` label remains. -/
lemma not_mem_renameAdjClose (l : List String) :
    "adj close" ∉ renameAdjClose l := by
  simp only [renameAdjClose, List.mem_map]
  rintro ⟨x, hx, hfx⟩
  by_cases hxa : x = "adj close"
  · rw [if_pos hxa] at hfx
    exact absurd hfx (by decide)
  · rw [if_neg hxa] at hfx
    exact hxa hfx

/-- The rename leaves membership of any other label unchanged. -/
lemma mem_renameAdjClose_of_ne (l : List String) {c : String}
    (h1 : c ≠ "close") (h2 : c ≠ "adj close") :
    c ∈ renameAdjClose l ↔ c ∈ l := by
  simp only [renameAdjClose, List.mem_map]
  constructor
  · rintro ⟨x, hx, hfx⟩
    by_cases hxa : x = "adj close"
    · rw [if_pos hxa] at hfx
      exact absurd hfx.symm h1
    · rw [if_neg hxa] at hfx
      exact hfx ▸ hx
  · intro hc
    exact ⟨c, hc, if_neg h2⟩

/-- Dropping the raw `close` column leaves membership of any other label
unchanged. -/
lemma mem_dropClose_of_ne (l : List String) {c : String} (h1 : c ≠ "close") :
    c ∈ dropClose l ↔ c ∈ l := by
  simp [dropClose, List.mem_filter, h1]

/-- C1: on a latest row with all five indicator values defined, the
aggregate verdict is Bullish iff sma20 > sma50 ∧ macdLine > macdSignal ∧
rsi14 < 70; Bearish iff sma20 ≤ sma50 ∧ macdLine ≤ macdSignal ∧
rsi14 > 30; Neutral in every other such case; and whenever any of the
five values is undefined the verdict is Indeterminate. -/
theorem C1_aggregate_verdict :
    (∀ (cl : Option ℚ) (rsi s20 s50 m sg : ℚ),
      (aggVerdict ⟨cl, some rsi, some s20, some s50, some m, some sg⟩ = .bullish ↔
        s20 > s50 ∧ m > sg ∧ rsi < 70) ∧
      (aggVerdict ⟨cl, some rsi, some s20, some s50, some m, some sg⟩ = .bearish ↔
        s20 ≤ s50 ∧ m ≤ sg ∧ rsi > 30) ∧
      (aggVerdict ⟨cl, some rsi, some s20, some s50, some m, some sg⟩ = .neutral ↔
        ¬(s20 > s50 ∧ m > sg ∧ rsi < 70) ∧ ¬(s20 ≤ s50 ∧ m ≤ sg ∧ rsi > 30))) ∧
    (∀ r : LatestRow,
      r.rsi14 = none ∨ r.sma20 = none ∨ r.sma50 = none ∨ r.macdLine = none ∨
        r.macdSignal = none → aggVerdict r = .indeterminate) := by
  constructor
  · intro cl rsi s20 s50 m sg
    simp only [aggVerdict, not_lt]
    split_ifs with h1 h2 <;> simp_all [not_lt]
  · rintro ⟨c, o1, o2, o3, o4, o5⟩ h
    simp only [aggVerdict]
    rcases h with h | h | h | h | h <;> simp_all

/-- C1 witness: a row missing rsi14 yields Indeterminate. -/
theorem C1_aggregate_verdict_witness :
    aggVerdict ⟨some 1, none, some 1, some 1, some 1, some 1⟩ = .indeterminate :=
  C1_aggregate_verdict.2 ⟨some 1, none, some 1, some 1, some 1, some 1⟩ (Or.inl rfl)

/-- C4: regional ROE is EPS / BPS when both are genuine numbers and
BPS ≠ 0 (1000/10000 = 0.10), and is None whenever BPS is zero, absent or
NaN, or EPS is absent. -/
theorem C4_roe_derivation :
    (∀ e b : ℚ, b ≠ 0 → deriveROE (.num e) (.num b) = some (e / b)) ∧
    deriveROE (.num 1000) (.num 10000) = some (10/100) ∧
    (∀ e : RawVal, deriveROE e (.num 0) = none ∧ deriveROE e .missing = none ∧
      deriveROE e .nan = none) ∧
    (∀ b : RawVal, deriveROE .missing b = none) := by
  refine ⟨?_, by norm_num [deriveROE], ?_, ?_⟩
  · intro e b hb; simp [deriveROE, hb]
  · intro e; cases e <;> simp [deriveROE]
  · intro b; cases b <;> simp [deriveROE]

/-- C4 witness: EPS=1000, BPS=10000 gives ROE = 1000 / 10000. -/
theorem C4_roe_derivation_witness :
    deriveROE (.num 1000) (.num 10000) = some (1000 / 10000) :=
  C4_roe_derivation.1 1000 10000 (by norm_num)

/-- C6: a zero-row table makes the Series Normalizer fail with
EmptySeriesError, whatever the columns are — in particular it never
produces a missing-field error. -/
theorem C6_empty_checked_first :
    ∀ cols : List String,
      download_stock_data 0 cols = .error .emptySeries ∧
      ∀ avail, download_stock_data 0 cols ≠ .error (.missingPriceField avail) := by
  intro cols
  constructor
  · simp [download_stock_data, dfEmpty]
  · intro avail
    simp [download_stock_data, dfEmpty]

/-- C7 counterexample: a defined PER equal to 0 is classified N/A,
not "loss-making" (the guard `if per and pd.notna(per)` treats 0 as
falsy), so N/A is not produced only when PER is undefined. -/
theorem C7_per_counterexample :
    classifyPER (some 0) = .na ∧ PerClass.na ≠ PerClass.lossMaking := by
  decide

/-- C7 amended: PER classification is "loss-making" when PER < 0,
"historically undervalued" on (0,15), "fair" on [15,30),
"overvalued/growth" when ≥ 30, and N/A exactly when PER is undefined or
equals 0. -/
theorem C7_per_classification :
    classifyPER none = .na ∧
    ∀ p : ℚ,
      (p = 0 → classifyPER (some p) = .na) ∧
      (p < 0 → classifyPER (some p) = .lossMaking) ∧
      (0 < p → p < 15 → classifyPER (some p) = .undervalued) ∧
      (15 ≤ p → p < 30 → classifyPER (some p) = .fair) ∧
      (30 ≤ p → classifyPER (some p) = .overvalued) ∧
      (classifyPER (some p) = .na → p = 0) := by
  refine ⟨rfl, ?_⟩
  intro p
  refine ⟨?_, ?_, ?_, ?_, ?_, ?_⟩
  · intro h; simp [classifyPER, h]
  · intro h
    have h0 : ¬ p = 0 := by linarith
    have hA : ¬ (p > 0 ∧ p < 15) := by rintro ⟨h', _⟩; linarith
    have hB : ¬ (p > 0 ∧ p < 30) := by rintro ⟨h', _⟩; linarith
    have hC : ¬ p > 0 := by linarith
    simp [classifyPER, h0, hA, hB, hC]
  · intro h1 h2
    have h0 : ¬ p = 0 := by linarith
    simp [classifyPER, h0, h1, h2]
  · intro h1 h2
    have h0 : ¬ p = 0 := by linarith
    have hA : ¬ (p > 0 ∧ p < 15) := by rintro ⟨_, h'⟩; linarith
    have hB : p > 0 ∧ p < 30 := ⟨by linarith, h2⟩
    simp [classifyPER, h0, hA, hB]
    all_goals linarith
  · intro h1
    have h0 : ¬ p = 0 := by linarith
    have hC : p > 0 := by linarith
    have hD : ¬ p < 15 := by linarith
    have hE : ¬ p < 30 := by linarith
    simp [classifyPER, h0, hC, hD, hE]
  · intro h
    by_contra h0
    rcases lt_trichotomy p 0 with h' | h' | h'
    · simp only [classifyPER, h0, if_false] at h
      split_ifs at h with hA hB hC <;> simp_all <;> linarith
    · exact h0 h'
    · simp only [classifyPER, h0, if_false] at h
      split_ifs at h with hA hB hC <;> simp_all <;> linarith

/-- C7 amended witness: PER = 20 classifies as "fair". -/
theorem C7_per_classification_witness :
    classifyPER (some 20) = .fair :=
  ((C7_per_classification.2 20).2.2.2.1) (by norm_num) (by norm_num)

/-- C8: on any retrieval fault the Fundamental Normalizer returns (never
raises) a snapshot whose per, pbr and roe all read as None, with the
warning printed, and the report's verdict is still synthesized from the
indicator row. -/
theorem C8_fault_boundary :
    ∀ msg : String,
      (get_fundamental_data (.fault msg)).snap = ⟨none, none, none⟩ ∧
      (get_fundamental_data (.fault msg)).warned = true ∧
      ∀ row : LatestRow,
        (analyzeReport row (get_fundamental_data (.fault msg))).verdict =
          aggVerdict row :=
  fun _ => ⟨rfl, rfl, fun _ => rfl⟩

/-- C9: two runs on the same latest indicator row that differ only in the
fundamental snapshot produce the same aggregate verdict and the same
sub-flags. -/
theorem C9_fundamentals_do_not_gate_verdict :
    ∀ (row : LatestRow) (s1 s2 : Snapshot) (e w : Bool),
      (analyzeReport row ⟨s1, e, w⟩).verdict = (analyzeReport row ⟨s2, e, w⟩).verdict ∧
      (analyzeReport row ⟨s1, e, w⟩).flags = (analyzeReport row ⟨s2, e, w⟩).flags :=
  fun _ _ _ _ _ => ⟨rfl, rfl⟩

/-- C2 counterexample: with the RSI call failing and the MACD/SMA calls
available, the single try/except of `compute_indicators` skips the MACD,
SMA20 and SMA50 computations entirely — the other families are NOT still
computed. -/
theorem C2_single_try_counterexample :
    (computeIndicatorsCore (Frame.ofClose [1, 2]) (.error "rsi failure")
        (.ok ([some 0], [some 0])) (.ok [some 1]) (.ok [some 1])).macdLine = none ∧
    (computeIndicatorsCore (Frame.ofClose [1, 2]) (.error "rsi failure")
        (.ok ([some 0], [some 0])) (.ok [some 1]) (.ok [some 1])).sma20 = none ∧
    (computeIndicatorsCore (Frame.ofClose [1, 2]) (.error "rsi failure")
        (.ok ([some 0], [some 0])) (.ok [some 1]) (.ok [some 1])).sma50 = none :=
  ⟨rfl, rfl, rfl⟩

/-- C2 amended: a failure in one indicator family never aborts the frame
(a frame with the same close series is still returned), but only the
families whose calls ran before the failing call (call order: RSI, MACD,
SMA20, SMA50) are computed; the failing family and every later one are
left undefined. -/
theorem C2_partial_results :
    ∀ (close : List ℚ) (rsiR : Except String Col)
      (macdR : Except String (Col × Col)) (sma20R sma50R : Except String Col),
      (computeIndicatorsCore (Frame.ofClose close) rsiR macdR sma20R sma50R).close
        = close ∧
      (∀ e, rsiR = .error e →
        computeIndicatorsCore (Frame.ofClose close) rsiR macdR sma20R sma50R
          = Frame.ofClose close) ∧
      (∀ c e, rsiR = .ok c → macdR = .error e →
        computeIndicatorsCore (Frame.ofClose close) rsiR macdR sma20R sma50R
          = { Frame.ofClose close with rsi := some c }) ∧
      (∀ c m sg e, rsiR = .ok c → macdR = .ok (m, sg) → sma20R = .error e →
        computeIndicatorsCore (Frame.ofClose close) rsiR macdR sma20R sma50R
          = { Frame.ofClose close with
                rsi := some c, macdLine := some m, macdSignal := some sg }) ∧
      (∀ c m sg c20 e, rsiR = .ok c → macdR = .ok (m, sg) → sma20R = .ok c20 →
          sma50R = .error e →
        computeIndicatorsCore (Frame.ofClose close) rsiR macdR sma20R sma50R
          = { Frame.ofClose close with
                rsi := some c, macdLine := some m, macdSignal := some sg,
                sma20 := some c20 }) ∧
      (∀ c m sg c20 c50, rsiR = .ok c → macdR = .ok (m, sg) → sma20R = .ok c20 →
          sma50R = .ok c50 →
        computeIndicatorsCore (Frame.ofClose close) rsiR macdR sma20R sma50R
          = { Frame.ofClose close with
                rsi := some c, macdLine := some m, macdSignal := some sg,
                sma20 := some c20, sma50 := some c50 }) := by
  intro close rsiR macdR sma20R sma50R
  refine ⟨?_, ?_, ?_, ?_, ?_, ?_⟩
  · cases rsiR with
    | error e => rfl
    | ok c =>
      cases macdR with
      | error e => rfl
      | ok p =>
        cases p with
        | mk m sg =>
          cases sma20R with
          | error e => rfl
          | ok c20 => cases sma50R with
            | error e => rfl
            | ok c50 => rfl
  · rintro e rfl; rfl
  · rintro c e rfl rfl; rfl
  · rintro c m sg e rfl rfl rfl; rfl
  · rintro c m sg c20 e rfl rfl rfl rfl; rfl
  · rintro c m sg c20 c50 rfl rfl rfl rfl; rfl

/-- C2 amended witness: RSI succeeds, MACD fails — the frame keeps the
RSI column and nothing later. -/
theorem C2_partial_results_witness :
    computeIndicatorsCore (Frame.ofClose [1]) (.ok [some 50]) (.error "boom")
        (.ok [some 1]) (.ok [some 1])
      = { Frame.ofClose [1] with rsi := some [some 50] } :=
  (C2_partial_results [1] (.ok [some 50]) (.error "boom") (.ok [some 1])
    (.ok [some 1])).2.2.1 [some 50] "boom" rfl rfl

/-- C10: `compute_indicators` mutates only the fresh copy: the caller's
frame reference reads back unchanged from the heap, and the returned
reference is a different object. -/
theorem C10_caller_frame_unchanged :
    ∀ (s : Store) (r : Nat) (rsiR : Except String Col)
      (macdR : Except String (Col × Col)) (sma20R sma50R : Except String Col),
      r < s.length →
      ((compute_indicators_st s r rsiR macdR sma20R sma50R).1)[r]? = s[r]? ∧
      (compute_indicators_st s r rsiR macdR sma20R sma50R).2 ≠ r := by
  intro s r rsiR macdR sma20R sma50R hr
  have hne : s.length ≠ r := (Nat.ne_of_lt hr).symm
  constructor
  · show ((s ++ [s.getD r default]).set s.length _)[r]? = s[r]?
    rw [List.getElem?_set_ne hne, List.getElem?_append_left hr]
  · show s.length ≠ r
    exact hne

/-- C10 witness: a one-frame heap, analysing the frame at reference 0. -/
theorem C10_caller_frame_unchanged_witness :
    ((compute_indicators_st [Frame.ofClose [1]] 0 (.ok [some 1])
        (.ok ([some 1], [some 1])) (.ok [some 1]) (.ok [some 1])).1)[0]?
      = [Frame.ofClose [1]][0]? ∧
    (compute_indicators_st [Frame.ofClose [1]] 0 (.ok [some 1])
        (.ok ([some 1], [some 1])) (.ok [some 1]) (.ok [some 1])).2 ≠ 0 :=
  C10_caller_frame_unchanged [Frame.ofClose [1]] 0 (.ok [some 1])
    (.ok ([some 1], [some 1])) (.ok [some 1]) (.ok [some 1]) (by decide)

/-- C5: on a non-empty table, the normalizer prefers `adj close`
(renaming it to `close` and discarding a separate raw `close`, all other
columns kept); otherwise it keeps an existing `close`; and with neither
present it fails with MissingPriceFieldError carrying the available
(lowercased) columns. -/
theorem C5_close_resolution (rows : Nat) (cols : List String)
    (h : dfEmpty rows cols = false) :
    ("adj close" ∈ lowerCols cols →
      ∃ cols', download_stock_data rows cols = .ok (rows, cols') ∧
        "close" ∈ cols' ∧ "adj close" ∉ cols' ∧
        ∀ c, c ≠ "close" → c ≠ "adj close" → (c ∈ cols' ↔ c ∈ lowerCols cols)) ∧
    ("adj close" ∉ lowerCols cols → "close" ∈ lowerCols cols →
      download_stock_data rows cols = .ok (rows, lowerCols cols)) ∧
    ("adj close" ∉ lowerCols cols → "close" ∉ lowerCols cols →
      download_stock_data rows cols = .error (.missingPriceField (lowerCols cols))) := by
  refine ⟨?_, ?_, ?_⟩
  · intro hadj
    by_cases hclose : "close" ∈ lowerCols cols
    · refine ⟨renameAdjClose (dropClose (lowerCols cols)), ?_, ?_, ?_, ?_⟩
      · simp [download_stock_data, h, hadj, hclose]
      · exact mem_renameAdjClose_close _ ((mem_dropClose_of_ne _ (by decide)).mpr hadj)
      · exact not_mem_renameAdjClose _
      · intro c hc1 hc2
        rw [mem_renameAdjClose_of_ne _ hc1 hc2, mem_dropClose_of_ne _ hc1]
    · refine ⟨renameAdjClose (lowerCols cols), ?_, ?_, ?_, ?_⟩
      · simp [download_stock_data, h, hadj, hclose]
      · exact mem_renameAdjClose_close _ hadj
      · exact not_mem_renameAdjClose _
      · intro c hc1 hc2
        exact mem_renameAdjClose_of_ne _ hc1 hc2
  · intro hadj hclose
    simp [download_stock_data, h, hadj, hclose]
  · intro hadj hclose
    simp [download_stock_data, h, hadj, hclose]

/-- C5 witness: a non-empty table with only a raw `Close` keeps it. -/
theorem C5_close_resolution_witness :
    download_stock_data 1 ["Open", "Close"] = .ok (1, lowerCols ["Open", "Close"]) :=
  (C5_close_resolution 1 ["Open", "Close"] (by decide)).2.1 (by decide) (by decide)

/-- C3: rsi14 is undefined for every row of a series shorter than 14
bars and undefined before row index 14 in any series; from row index 14
on (once 14 deltas exist) it is defined and always lies in [0, 100]. -/
theorem C3_rsi14_definedness_and_bounds :
    (∀ c : List ℚ, c.length < 14 → ∀ i, rsiAt c i = none) ∧
    (∀ (c : List ℚ) (i : Nat), i < 14 → rsiAt c i = none) ∧
    (∀ (c : List ℚ) (i : Nat), 14 ≤ i → i < c.length →
      ∃ q, rsiAt c i = some q ∧ 0 ≤ q ∧ q ≤ 100) := by
  refine ⟨?_, ?_, ?_⟩
  · intro c hc i
    simp only [rsiAt]
    rw [if_neg]
    rintro ⟨h1, h2⟩
    omega
  · intro c i hi
    simp only [rsiAt]
    rw [if_neg]
    rintro ⟨h1, _⟩
    omega
  · intro c i h1 h2
    simp only [rsiAt]
    rw [if_pos ⟨h1, h2⟩]
    have hg0 : 0 ≤ gainSum c i / 14 := by
      apply div_nonneg _ (by norm_num)
      exact Finset.sum_nonneg fun k _ => le_max_right _ 0
    have hl0 : 0 ≤ lossSum c i / 14 := by
      apply div_nonneg _ (by norm_num)
      exact Finset.sum_nonneg fun k _ => le_max_right _ 0
    by_cases hz : lossSum c i / 14 = 0
    · exact ⟨100, by rw [if_pos hz], by norm_num, by norm_num⟩
    · have hR : 0 ≤ (gainSum c i / 14) / (lossSum c i / 14) := div_nonneg hg0 hl0
      have h1R : (1:ℚ) ≤ 1 + (gainSum c i / 14) / (lossSum c i / 14) := by linarith
      have hd0 : 0 ≤ 100 / (1 + (gainSum c i / 14) / (lossSum c i / 14)) :=
        div_nonneg (by norm_num) (by linarith)
      have hd100 : 100 / (1 + (gainSum c i / 14) / (lossSum c i / 14)) ≤ 100 :=
        div_le_self (by norm_num) h1R
      exact ⟨_, by rw [if_neg hz], by linarith, by linarith⟩

/-- C3 witness: a 3-bar series has rsi14 undefined (here at row 2). -/
theorem C3_rsi14_witness :
    rsiAt [(1:ℚ), 2, 3] 2 = none :=
  C3_rsi14_definedness_and_bounds.1 [1, 2, 3] (by decide) 2

end Analyze
